import Mathlib

/-!
Shallow embedding of the coordination-pipeline core of the repository
(backend/app): the conversation state machine, the signature verifier and
ingestion gateway, the coordination decision engine, the understanding
agent's signal construction, and the gap detector.

Conventions of the embedding:
* Python floats and datetimes are modelled as exact rationals (`ℚ`,
  seconds since an arbitrary epoch); Unix times from `time.time()` as `Int`.
* Library calls external to the repository (hashlib/hmac hex digests,
  `json.loads`, `str()` on arbitrary values) are abstracted as function
  parameters of the embedding, so every theorem quantifies over them.
* Python exceptions are modelled with `Except PyErr`; a function that
  cannot raise is total.
* Fresh identifiers (`uuid.uuid4()`) and the current time
  (`datetime.utcnow()`) are passed in explicitly as parameters.
-/

deriving instance DecidableEq for Except

namespace Coordapp

/-- Python exceptions that the modelled code can raise. -/
inductive PyErr where
  /-- `ValueError`, e.g. from `int()` on a non-numeric string or an
  explicit `raise ValueError(...)`. -/
  | valueError : PyErr
  /-- FastAPI `HTTPException(status_code=401, ...)`. -/
  | httpUnauthorized : PyErr
  deriving DecidableEq, Repr

/-! ## `app/core/state_machine.py` -/

/-- `ConversationState` enum from `state_machine.py`. -/
inductive ConversationState where
  | idle
  | question_raised
  | clarifying
  | owner_assigned
  | in_progress
  | resolved
  deriving DecidableEq, Repr

/-- `StateTransition` dataclass. `timestamp` is seconds as `ℚ`;
`metadata` is a string-keyed dict modelled as an association list. -/
structure StateTransition where
  id : String
  from_state : ConversationState
  to_state : ConversationState
  trigger : String
  timestamp : ℚ
  metadata : List (String × String)
  deriving DecidableEq, Repr

/-- `BehaviorStateMachine.VALID_TRANSITIONS`: the legal-transition table,
transcribed row by row from the class attribute. The Python dict has an
entry for every state, so a total function is an exact model (the `.get`
default `[]` in `can_transition` is never reached). -/
def VALID_TRANSITIONS : ConversationState → List ConversationState
  | .idle => [.question_raised, .clarifying]
  | .question_raised => [.clarifying, .owner_assigned, .resolved]
  | .clarifying => [.question_raised, .owner_assigned, .resolved]
  | .owner_assigned => [.in_progress, .clarifying, .resolved]
  | .in_progress => [.resolved, .clarifying]
  | .resolved => [.idle, .question_raised]

/-- Mutable state of a `BehaviorStateMachine` instance:
`current_state`, `transitions`, and `state_timestamps` (a dict modelled
as an association list with last-write-wins insertion). -/
structure BehaviorStateMachine where
  current_state : ConversationState
  transitions : List StateTransition
  state_timestamps : List (ConversationState × ℚ)
  deriving DecidableEq, Repr

/-- `BehaviorStateMachine.__init__`. -/
def initMachine : BehaviorStateMachine :=
  { current_state := .idle, transitions := [], state_timestamps := [] }

/-- Python dict assignment `d[k] = v` on an association-list model:
replaces the binding for `k` if present, otherwise appends it. -/
def dictInsert (d : List (ConversationState × ℚ)) (k : ConversationState) (v : ℚ) :
    List (ConversationState × ℚ) :=
  if d.any (fun p => p.1 = k) then
    d.map (fun p => if p.1 = k then (k, v) else p)
  else
    d ++ [(k, v)]

/-- `BehaviorStateMachine.can_transition`. -/
def can_transition (m : BehaviorStateMachine) (new_state : ConversationState) : Bool :=
  new_state ∈ VALID_TRANSITIONS m.current_state

/-- `BehaviorStateMachine.transition_to`. The fresh `uuid4` id and the
current time are parameters; returns the Python return value paired with
the machine state after the call. -/
def transition_to (m : BehaviorStateMachine) (new_state : ConversationState)
    (trigger : String) (metadata : List (String × String)) (id : String) (now : ℚ) :
    Option StateTransition × BehaviorStateMachine :=
  if can_transition m new_state then
    let t : StateTransition :=
      { id := id, from_state := m.current_state, to_state := new_state,
        trigger := trigger, timestamp := now, metadata := metadata }
    (some t,
      { current_state := new_state,
        transitions := m.transitions ++ [t],
        state_timestamps := dictInsert m.state_timestamps new_state now })
  else
    (none, m)

/-- The `StateTransition` record built by a successful `transition_to` call. -/
def transitionRecord (m : BehaviorStateMachine) (new_state : ConversationState)
    (trigger : String) (metadata : List (String × String)) (id : String) (now : ℚ) :
    StateTransition :=
  { id := id, from_state := m.current_state, to_state := new_state,
    trigger := trigger, timestamp := now, metadata := metadata }

/-- The machine state after a successful `transition_to` call. -/
def machineAfter (m : BehaviorStateMachine) (new_state : ConversationState)
    (trigger : String) (metadata : List (String × String)) (id : String) (now : ℚ) :
    BehaviorStateMachine :=
  { current_state := new_state,
    transitions := m.transitions ++ [transitionRecord m new_state trigger metadata id now],
    state_timestamps := dictInsert m.state_timestamps new_state now }

theorem transition_to_success (m : BehaviorStateMachine) (new_state : ConversationState)
    (trigger : String) (metadata : List (String × String)) (id : String) (now : ℚ)
    (hc : can_transition m new_state = true) :
    transition_to m new_state trigger metadata id now =
      (some (transitionRecord m new_state trigger metadata id now),
       machineAfter m new_state trigger metadata id now) := by
  simp [transition_to, transitionRecord, machineAfter, hc]

/-- One requested transition: target state, trigger, metadata, and the
id/time supplied by the environment at that call. -/
structure TransitionRequest where
  new_state : ConversationState
  trigger : String
  metadata : List (String × String)
  id : String
  now : ℚ
  deriving Repr

/-- Run a sequence of `transition_to` calls, returning the final machine
and the number of calls that succeeded (returned a `StateTransition`). -/
def runMachine (m : BehaviorStateMachine) : List TransitionRequest → BehaviorStateMachine × Nat
  | [] => (m, 0)
  | r :: rs =>
    let step := transition_to m r.new_state r.trigger r.metadata r.id r.now
    let rest := runMachine step.2 rs
    (rest.1, (if step.1.isSome then 1 else 0) + rest.2)

/-- `chainFrom s₀ ts s`: the transition list `ts` is chained — the first
entry leaves `s₀`, each entry leaves the state the previous one entered,
and the last entry enters `s`. -/
def chainFrom (s₀ : ConversationState) : List StateTransition → ConversationState → Bool
  | [], s => s₀ = s
  | t :: ts, s => (t.from_state = s₀) && chainFrom t.to_state ts s

theorem chainFrom_append_one (s₀ s : ConversationState) (ts : List StateTransition)
    (t : StateTransition) (h : chainFrom s₀ ts s = true)
    (hf : t.from_state = s) :
    chainFrom s₀ (ts ++ [t]) t.to_state = true := by
  induction ts generalizing s₀ with
  | nil =>
    simp only [chainFrom, decide_eq_true_eq] at h
    simp [chainFrom, hf, h]
  | cons u us ih =>
    simp only [chainFrom, Bool.and_eq_true, decide_eq_true_eq] at h
    simp only [List.cons_append, chainFrom, Bool.and_eq_true, decide_eq_true_eq]
    exact ⟨h.1, ih u.to_state h.2⟩

theorem runMachine_invariant (reqs : List TransitionRequest) (m : BehaviorStateMachine)
    (s₀ : ConversationState) (h : chainFrom s₀ m.transitions m.current_state = true) :
    chainFrom s₀ (runMachine m reqs).1.transitions (runMachine m reqs).1.current_state = true ∧
    (runMachine m reqs).1.transitions.length = m.transitions.length + (runMachine m reqs).2 := by
  induction reqs generalizing m with
  | nil => simpa [runMachine] using h
  | cons r rs ih =>
    by_cases hc : can_transition m r.new_state = true
    · have hstep := transition_to_success m r.new_state r.trigger r.metadata r.id r.now hc
      have hchain : chainFrom s₀
          (machineAfter m r.new_state r.trigger r.metadata r.id r.now).transitions
          (machineAfter m r.new_state r.trigger r.metadata r.id r.now).current_state = true := by
        exact chainFrom_append_one s₀ m.current_state m.transitions _ h rfl
      have h' := ih (machineAfter m r.new_state r.trigger r.metadata r.id r.now) hchain
      refine ⟨?_, ?_⟩
      · simpa [runMachine, hstep] using h'.1
      · have h2 := h'.2
        have hlen : (machineAfter m r.new_state r.trigger r.metadata r.id r.now).transitions.length
            = m.transitions.length + 1 := by
          simp [machineAfter]
        simp only [runMachine, hstep, Option.isSome_some, if_true]
        rw [h2, hlen]
        omega
    · have hstep : transition_to m r.new_state r.trigger r.metadata r.id r.now = (none, m) := by
        simp [transition_to, hc]
      have h' := ih m h
      refine ⟨?_, ?_⟩
      · simpa [runMachine, hstep] using h'.1
      · have h2 := h'.2
        simpa [runMachine, hstep] using h2

/-- Claim C8: starting from a freshly initialized machine, after a run in
which all N attempted transitions succeed, `transitions` has length N and is
chained: the first entry leaves `idle` and each entry leaves the state the
previous one entered (ending at `current_state`). -/
theorem runMachine_audit (reqs : List TransitionRequest) (mf : BehaviorStateMachine) (n : Nat)
    (h : runMachine initMachine reqs = (mf, n)) :
    mf.transitions.length = n ∧
      chainFrom .idle mf.transitions mf.current_state = true := by
  have hinv := runMachine_invariant reqs initMachine .idle (by rfl)
  rw [h] at hinv
  exact ⟨by simpa [initMachine] using hinv.2, hinv.1⟩

/-- Two transition requests that both succeed from the initial state:
`idle → question_raised → owner_assigned`. -/
def exReqs : List TransitionRequest :=
  [⟨.question_raised, "message:question", [], "t-1", 10⟩,
   ⟨.owner_assigned, "message:update", [], "t-2", 20⟩]

theorem runMachine_audit_witness :
    (runMachine initMachine exReqs).1.transitions.length = 2 ∧
      chainFrom .idle (runMachine initMachine exReqs).1.transitions
        (runMachine initMachine exReqs).1.current_state = true := by
  have h : runMachine initMachine exReqs = ((runMachine initMachine exReqs).1, 2) := by rfl
  exact runMachine_audit exReqs _ 2 h

/-- Claim C1: for every machine state and every target state not listed in
the legal transition table for the current state, `transition_to` returns
`None`, raises nothing, and leaves `current_state`, `transitions`, and
`state_timestamps` unchanged. -/
theorem transition_to_illegal (m : BehaviorStateMachine) (new_state : ConversationState)
    (trigger : String) (metadata : List (String × String)) (id : String) (now : ℚ)
    (h : new_state ∉ VALID_TRANSITIONS m.current_state) :
    transition_to m new_state trigger metadata id now = (none, m) := by
  have hc : can_transition m new_state = false := by
    simp [can_transition, h]
  simp [transition_to, hc]

theorem transition_to_illegal_witness :
    (ConversationState.idle ∉ VALID_TRANSITIONS initMachine.current_state) ∧
      transition_to initMachine .idle "msg" [] "id-1" 0 = (none, initMachine) :=
  ⟨by decide, transition_to_illegal initMachine .idle "msg" [] "id-1" 0 (by decide)⟩

/-! ## `app/services/event_ingestion.py` and `app/core/security.py` -/

/-- Value of a decimal digit character. -/
def digitVal (c : Char) : Nat := c.toNat - 48

/-- All-digit character list to its value; `none` when empty or when any
character is not a digit. -/
def digitsToNat : List Char → Option Nat
  | [] => none
  | cs =>
    if cs.all Char.isDigit then
      some (cs.foldl (fun n c => 10 * n + digitVal c) 0)
    else none

/-- ASCII whitespace, as stripped by Python's `int()`. -/
def isPySpace (c : Char) : Bool :=
  c = ' ' || c = '\t' || c = '\n' || c = '\r' || c = '\x0b' || c = '\x0c'

/-- Strip leading and trailing whitespace from a character list. -/
def stripChars (cs : List Char) : List Char :=
  ((cs.dropWhile isPySpace).reverse.dropWhile isPySpace).reverse

/-- Python `int(s)` on a string: strips surrounding whitespace, accepts an
optional sign followed by decimal digits, raises `ValueError` otherwise
(modelled as `none`). Digit-group underscores — irrelevant to any claim —
are not modelled. -/
def pyParseInt (s : String) : Option Int :=
  match stripChars s.toList with
  | '+' :: rest => (digitsToNat rest).map Int.ofNat
  | '-' :: rest => (digitsToNat rest).map (fun n => -(n : Int))
  | cs => (digitsToNat cs).map Int.ofNat

/-- `EventIngestionService.verify_signature`. `hmacSha256Hex` abstracts
`hmac.new(secret, msg, hashlib.sha256).hexdigest()`; `now` abstracts
`time.time()` (whole seconds). `int(timestamp)` on a non-numeric string
raises `ValueError`; `hmac.compare_digest` is string equality. The
signature base string is `"v0:" + timestamp` concatenated with the raw
body bytes, exactly as in the source. -/
def verify_signature (hmacSha256Hex : String → String → String)
    (signing_secret : String) (now : Int)
    (timestamp signature body : String) : Except PyErr Bool :=
  match pyParseInt timestamp with
  | none => .error .valueError
  | some ts =>
    if 60 * 5 < (now - ts).natAbs then
      .ok false
    else
      .ok (("v0=" ++ hmacSha256Hex signing_secret ("v0:" ++ timestamp ++ body)) == signature)

/-- `SecurityManager.verify_slack_signature`: identical HMAC check, but a
stale timestamp raises `HTTPException(401)` instead of returning `False`. -/
def verify_slack_signature (hmacSha256Hex : String → String → String)
    (signing_secret : String) (now : Int)
    (timestamp signature body : String) : Except PyErr Bool :=
  match pyParseInt timestamp with
  | none => .error .valueError
  | some ts =>
    if 60 * 5 < (now - ts).natAbs then
      .error .httpUnauthorized
    else
      .ok (("v0=" ++ hmacSha256Hex signing_secret ("v0:" ++ timestamp ++ body)) == signature)

/-- Claim C2 (amended): for any timestamp header that parses as an integer
differing from the current time by more than 300 seconds,
`EventIngestionService.verify_signature` returns `False` regardless of the
signature (so a validly-signed payload 301 seconds old is rejected), and
`SecurityManager.verify_slack_signature` raises `HTTPException(401)`. -/
theorem verify_signature_replay (hmacSha256Hex : String → String → String)
    (signing_secret : String) (now ts : Int) (timestamp signature body : String)
    (hparse : pyParseInt timestamp = some ts)
    (hstale : 300 < (now - ts).natAbs) :
    verify_signature hmacSha256Hex signing_secret now timestamp signature body = .ok false ∧
      verify_slack_signature hmacSha256Hex signing_secret now timestamp signature body =
        .error .httpUnauthorized := by
  have h : 60 * 5 < (now - ts).natAbs := by omega
  constructor
  · simp [verify_signature, hparse, h]
  · simp [verify_slack_signature, hparse, h]

theorem verify_signature_replay_witness :
    pyParseInt "699" = some 699 ∧
      300 < ((1000 : Int) - 699).natAbs ∧
      verify_signature (fun _ _ => "H") "secret" 1000 "699" "v0=H" "body" = .ok false ∧
      verify_slack_signature (fun _ _ => "H") "secret" 1000 "699" "v0=H" "body" =
        .error .httpUnauthorized := by
  refine ⟨by decide, by decide, ?_⟩
  exact verify_signature_replay (fun _ _ => "H") "secret" 1000 699 "699" "v0=H" "body"
    (by decide) (by decide)

/-- Counterexample to claim C2 as stated: the verifier does throw for
malformed input. With a non-numeric (or missing, hence empty) timestamp
header, `int(timestamp)` raises `ValueError` instead of returning `False`. -/
theorem verify_signature_malformed_throws :
    verify_signature (fun _ _ => "H") "secret" 1000 "not-a-number" "v0=H" "raw-body" =
        .error .valueError ∧
      verify_signature (fun _ _ => "H") "secret" 1000 "" "v0=H" "raw-body" =
        .error .valueError := by
  constructor <;> decide

/-! ### Ingestion gateway -/

/-- Raw inner event dict of an `event_callback` payload, with only the keys
`_parse_event` reads; a missing key is `none`. -/
structure EventDict where
  type : Option String := none
  channel : Option String := none
  user : Option String := none
  text : Option String := none
  thread_ts : Option String := none
  ts : Option String := none
  event_ts : Option String := none
  deriving DecidableEq, Repr

/-- `SlackEvent` dataclass (validated event); `raw_data` is the inner dict. -/
structure SlackEvent where
  type : String
  channel : String
  user : Option String
  text : String
  thread_ts : Option String
  message_ts : String
  event_ts : String
  raw_data : EventDict
  deriving DecidableEq, Repr

/-- Outer Slack payload, with the keys `handle_slack_event` reads; the
`event` key defaults to the empty dict as in `event_data.get("event", {})`. -/
structure SlackPayload where
  type : Option String := none
  challenge : Option String := none
  event : EventDict := {}
  deriving DecidableEq, Repr

/-- Gateway response body: `{"ok": true}` or `{"challenge": ...}`. -/
inductive SlackResponse where
  | okTrue : SlackResponse
  | challenge : Option String → SlackResponse
  deriving DecidableEq, Repr

/-- `EventIngestionService._parse_event`: accepts only `message` and
`app_mention` event subtypes, everything else yields `None`. `x or ""`
on an optional string collapses both `None` and `""` to `""`. -/
def parse_event (event : EventDict) : Option SlackEvent :=
  match event.type with
  | some t =>
    if t = "message" ∨ t = "app_mention" then
      let channel := (event.channel.getD "")
      let message_ts := (event.ts.getD "")
      let event_ts := match event.event_ts with
        | some e => if e = "" then message_ts else e
        | none => message_ts
      some { type := t, channel := channel, user := event.user,
             text := event.text.getD "", thread_ts := event.thread_ts,
             message_ts := message_ts, event_ts := event_ts, raw_data := event }
    else none
  | none => none

/-- `EventIngestionService.handle_slack_event`, with the internal
`asyncio.Queue` modelled as the list `queue` (new events are appended by
`_process_event_callback`; the optional `on_event` callback is `None`, its
default). Returns the response paired with the queue after the call. -/
def handle_slack_event (hmacSha256Hex : String → String → String)
    (signing_secret : String) (now : Int) (event_data : SlackPayload)
    (timestamp signature body : String) (queue : List SlackEvent) :
    Except PyErr (SlackResponse × List SlackEvent) :=
  match verify_signature hmacSha256Hex signing_secret now timestamp signature body with
  | .error e => .error e
  | .ok false => .error .valueError
  | .ok true =>
    match event_data.type with
    | some "url_verification" => .ok (.challenge event_data.challenge, queue)
    | some "event_callback" =>
      match parse_event event_data.event with
      | some ev => .ok (.okTrue, queue ++ [ev])
      | none => .ok (.okTrue, queue)
    | _ => .ok (.okTrue, queue)

/-- `GET /events/slack` handler `slack_url_verification` in
`app/api/events.py`: echoes the `challenge` query parameter with no
signature verification of any kind. -/
def slack_url_verification (challenge : String) : SlackResponse :=
  .challenge (some challenge)

/-- Claim C9: under a valid signature, an `event_callback` payload whose
inner event parses to `None` enqueues nothing and the gateway still
returns `{"ok": true}`. -/
theorem handle_slack_event_noop (hmacSha256Hex : String → String → String)
    (signing_secret : String) (now : Int) (event_data : SlackPayload)
    (timestamp signature body : String) (queue : List SlackEvent)
    (hok : verify_signature hmacSha256Hex signing_secret now timestamp signature body = .ok true)
    (htype : event_data.type = some "event_callback")
    (hparse : parse_event event_data.event = none) :
    handle_slack_event hmacSha256Hex signing_secret now event_data
        timestamp signature body queue = .ok (.okTrue, queue) := by
  simp [handle_slack_event, hok, htype, hparse]

theorem handle_slack_event_noop_witness :
    verify_signature (fun _ _ => "") "s" 0 "0" "v0=" "" = .ok true ∧
      parse_event ({ type := some "reaction_added" } : EventDict) = none ∧
      handle_slack_event (fun _ _ => "") "s" 0
          { type := some "event_callback", event := { type := some "reaction_added" } }
          "0" "v0=" "" [] = .ok (.okTrue, []) := by
  refine ⟨by decide, by decide, ?_⟩
  exact handle_slack_event_noop (fun _ _ => "") "s" 0
    { type := some "event_callback", event := { type := some "reaction_added" } }
    "0" "v0=" "" [] (by decide) rfl (by decide)

/-- Claim C5 (code bug): the POST gateway path does require a valid
signature before echoing a handshake challenge — with a failing signature
it raises instead of answering — but the `GET /events/slack` endpoint
echoes the challenge back unconditionally, with no signature verification
at all, contradicting the stated policy. Evaluated at the failing input:
a `GET` with `challenge="probe"`, and the same handshake sent to the POST
path with a wrong signature. -/
theorem slack_url_verification_unverified_echo :
    slack_url_verification "probe" = .challenge (some "probe") ∧
      handle_slack_event (fun _ _ => "D") "s" 0
          { type := some "url_verification", challenge := some "probe" }
          "0" "wrong-signature" "" [] = .error .valueError := by
  constructor
  · rfl
  · decide

/-! ## `app/agents/coordinator.py` -/

/-- `CoordinationDecision` dataclass. Metadata values are numeric in every
rule, so the dict is modelled as a `String × ℚ` association list. -/
structure CoordinationDecision where
  action : String
  reason : String
  priority : String
  metadata : List (String × ℚ)
  deriving DecidableEq, Repr

/-- `CoordinationAgent.THRESHOLDS` dict (all four values are Python ints;
every key the code looks up is present, so the catch-all is unreachable). -/
def THRESHOLDS : String → Int
  | "ownership_timeout_hours" => 24
  | "clarification_max_loops" => 3
  | "response_timeout_hours" => 4
  | "resolution_stall_hours" => 48
  | _ => 0

/-- Python `max` on a list, guarded by nonemptiness at the call site. -/
def pyMax : List ℚ → ℚ
  | [] => 0
  | x :: xs => xs.foldl max x

/-- Fixed-point decimal rendering of a rational, used for the `:.1f` and
`:.2f` f-string reasons. Python formats the binary double with
round-half-even; exact-rational rounding abstracts the tie-breaking, which
no claim exercises. -/
def qFormatFixed (prec : Nat) (q : ℚ) : String :=
  let n : ℤ := round (q * (10 ^ prec : ℕ))
  let sign := if n < 0 then "-" else ""
  let a := n.natAbs
  let fpStr := toString (a % 10 ^ prec)
  let pad := String.mk (List.replicate (prec - fpStr.length) '0')
  sign ++ toString (a / 10 ^ prec) ++ "." ++ pad ++ fpStr

/-- `CoordinationAgent.evaluate`: the four-rule evaluator, first match
wins. `now` abstracts `datetime.utcnow()`; times are seconds as `ℚ`.
The nested `if`s of rules 1 and 2 fall through exactly like the flattened
conjunctions here. -/
def evaluate (now : ℚ) (conversation_state : String) (time_in_state : ℚ)
    (signal_intent : String) (signal_needs_owner : Bool) (gap_severities : List ℚ)
    (clarification_count : Int) (last_activity_at : ℚ) : Option CoordinationDecision :=
  let hours_since_activity := (now - last_activity_at) / 3600
  if conversation_state = "question_raised" ∧ signal_needs_owner = true ∧
      ((THRESHOLDS "ownership_timeout_hours" * 3600 : Int) : ℚ) < time_in_state then
    some { action := "prompt_ownership",
           reason := "No owner assigned after " ++
             toString (THRESHOLDS "ownership_timeout_hours") ++ " hours",
           priority := "high",
           metadata := [("hours_elapsed", time_in_state / 3600)] }
  else if (conversation_state = "question_raised" ∨ conversation_state = "clarifying") ∧
      THRESHOLDS "clarification_max_loops" ≤ clarification_count then
    some { action := "suggest_context",
           reason := toString clarification_count ++ " clarification loops detected",
           priority := "medium",
           metadata := [("clarification_count", (clarification_count : ℚ))] }
  else if signal_intent = "question" ∧
      ((THRESHOLDS "response_timeout_hours" : Int) : ℚ) < hours_since_activity then
    some { action := "nudge_response",
           reason := "Unanswered question for " ++ qFormatFixed 1 hours_since_activity ++ " hours",
           priority := "medium",
           metadata := [("hours_since_activity", hours_since_activity)] }
  else if gap_severities ≠ [] ∧ (7 / 10 : ℚ) < pyMax gap_severities then
    some { action := "flag_gap",
           reason := "High severity gap detected: " ++ qFormatFixed 2 (pyMax gap_severities),
           priority := "high",
           metadata := [("max_severity", pyMax gap_severities)] }
  else
    none

/-- Claim C3: the rules are evaluated in fixed priority order with first
match wins and at most one decision per call; with state
`question_raised`, `needsOwner = true`, `timeInState` of 25 hours
(90000 s) and `clarificationCount = 5` — inputs satisfying rules 1 and 2
simultaneously — `evaluate` returns `prompt_ownership` with priority
`high`, not `suggest_context`, for every intent, gap list and activity
time. -/
theorem evaluate_first_match_wins (now : ℚ) (signal_intent : String)
    (gap_severities : List ℚ) (last_activity_at : ℚ) :
    evaluate now "question_raised" 90000 signal_intent true gap_severities 5 last_activity_at =
      some { action := "prompt_ownership",
             reason := "No owner assigned after 24 hours",
             priority := "high",
             metadata := [("hours_elapsed", 25)] } := by
  have h1 : ((THRESHOLDS "ownership_timeout_hours" * 3600 : Int) : ℚ) < 90000 := by
    norm_num [THRESHOLDS]
  have h2 : (90000 : ℚ) / 3600 = 25 := by norm_num
  simp only [evaluate, THRESHOLDS, h2]
  norm_num
  decide

/-! ## `app/agents/understanding.py` -/

/-- `IntentType` enum (shared shape with `app/models/database.py`). -/
inductive IntentType where
  | question
  | bug_report
  | update
  | resolution
  deriving DecidableEq, Repr

/-- `BehavioralSignal` dataclass. -/
structure BehavioralSignal where
  intent : IntentType
  topic : String
  needs_owner : Bool
  uncertainty : ℚ
  confidence : ℚ
  entities : List String
  implied_action : Option String
  deriving DecidableEq, Repr

/-- Dynamically-typed Python values as they reach the `_parse_*` helpers. -/
inductive PyVal where
  | none : PyVal
  | bool : Bool → PyVal
  | num : ℚ → PyVal
  | str : String → PyVal
  | list : List PyVal → PyVal

/-- Python truthiness of a `PyVal`. -/
def pyTruthy : PyVal → Bool
  | .none => false
  | .bool b => b
  | .num q => q ≠ 0
  | .str s => s ≠ ""
  | .list l => !l.isEmpty

/-- Python `float(value)` on a non-`None` value: numbers and bools convert,
strings go through float parsing (abstracted as `parseFloatStr`, the
stdlib parser), anything else raises `TypeError` (`none`). -/
def pyFloatOf (parseFloatStr : String → Option ℚ) : PyVal → Option ℚ
  | .none => Option.none
  | .bool b => some (if b then 1 else 0)
  | .num q => some q
  | .str s => parseFloatStr s
  | .list _ => Option.none

/-- `UnderstandingAgent._parse_float`: `None` and parse failures collapse
to the default. -/
def parse_float (parseFloatStr : String → Option ℚ) (value : PyVal) (default : ℚ) : ℚ :=
  match value with
  | .none => default
  | v =>
    match pyFloatOf parseFloatStr v with
    | some q => q
    | Option.none => default

/-- Lowercase conversion followed by whitespace strip, i.e. Python
`s.lower().strip()` (ASCII). -/
def lowerStrip (s : String) : String :=
  String.mk (stripChars (s.toList.map Char.toLower))

/-- `UnderstandingAgent._parse_bool`. -/
def parse_bool (value : PyVal) : Bool :=
  match value with
  | .none => false
  | .bool b => b
  | .str s => String.mk (s.toList.map Char.toLower) ∈ (["true", "1", "yes", "y"] : List String)
  | v => pyTruthy v

/-- Does `hay` start with `needle`? -/
def startsWithChars : List Char → List Char → Bool
  | _, [] => true
  | [], _ :: _ => false
  | h :: hs, n :: ns => h = n && startsWithChars hs ns

/-- Python substring test `needle in hay`. -/
def strContains (hay needle : String) : Bool :=
  go hay.toList needle.toList
where
  go : List Char → List Char → Bool
    | [], n => startsWithChars [] n
    | h :: hs, n => startsWithChars (h :: hs) n || go hs n

/-- `UnderstandingAgent._parse_list`. `pyStrFn` abstracts `str(item)` and
`jsonLoads` abstracts `json.loads` (a non-list JSON value falls through to
the final `return []`; a decode error keeps the raw string when nonblank). -/
def parse_list (pyStrFn : PyVal → String) (jsonLoads : String → Option PyVal)
    (value : PyVal) : List String :=
  match value with
  | .none => []
  | .list items => (items.filter pyTruthy).map pyStrFn
  | .str s =>
    match jsonLoads s with
    | some (.list items) => (items.filter pyTruthy).map pyStrFn
    | some _ => []
    | Option.none => if stripChars s.toList ≠ [] then [s] else []
  | _ => []

/-- `UnderstandingAgent._parse_intent`. -/
def parse_intent (intent_str : String) : IntentType :=
  let il := lowerStrip intent_str
  if strContains il "question" then .question
  else if strContains il "bug" || strContains il "issue" then .bug_report
  else if strContains il "fix" || strContains il "resolve" || strContains il "done" then .resolution
  else .update

/-- Raw `dspy.Predict(AnalyzeMessage)` output as `analyze_message`
consumes it: the typed fields arrive as strings, the duck-typed ones as
arbitrary `PyVal`s. -/
structure AnalyzerResult where
  intent : String
  confidence : PyVal
  topic : Option String
  entities : PyVal
  needs_owner : PyVal
  implied_action : Option String

/-- The default `BehavioralSignal` returned by the `except` branch of
`analyze_message`. -/
def defaultSignal : BehavioralSignal :=
  { intent := .update, topic := "unknown", needs_owner := false,
    uncertainty := 1, confidence := 1 / 2, entities := [], implied_action := Option.none }

/-- `UnderstandingAgent.analyze_message`. The LM call is abstracted:
`outcome = none` models any exception inside the `try` block (the whole
block is guarded by `except Exception`), `outcome = some r` a returned
prediction. The context string built from `conversation_history` only
feeds the LM, so it does not appear here. -/
def analyze_message (parseFloatStr : String → Option ℚ) (pyStrFn : PyVal → String)
    (jsonLoads : String → Option PyVal) (outcome : Option AnalyzerResult) :
    BehavioralSignal :=
  match outcome with
  | Option.none => defaultSignal
  | some result =>
    let confidence := max 0 (min 1 (parse_float parseFloatStr result.confidence (1 / 2)))
    { intent := parse_intent result.intent,
      topic := match result.topic with
        | some t => if t ≠ "" then lowerStrip t else "unknown"
        | Option.none => "unknown",
      needs_owner := parse_bool result.needs_owner,
      uncertainty := 1 - confidence,
      confidence := confidence,
      entities := parse_list pyStrFn jsonLoads result.entities,
      implied_action := match result.implied_action with
        | some a => if a ≠ "" then some a else Option.none
        | Option.none => Option.none }

/-- Claim C4 (amended): every signal has `confidence ∈ [0,1]`; no
exception escapes `analyze_message` — on internal failure it returns the
default signal with `intent = update`, `confidence = 0.5`,
`needsOwner = false` and `uncertainty = 1.0`; but `uncertainty = 1 −
confidence` holds only for signals from the success path, and fails on
the failure default (`1 ≠ 1 − 0.5`). -/
theorem analyze_message_invariants (parseFloatStr : String → Option ℚ)
    (pyStrFn : PyVal → String) (jsonLoads : String → Option PyVal) :
    (∀ outcome, 0 ≤ (analyze_message parseFloatStr pyStrFn jsonLoads outcome).confidence ∧
        (analyze_message parseFloatStr pyStrFn jsonLoads outcome).confidence ≤ 1) ∧
      analyze_message parseFloatStr pyStrFn jsonLoads Option.none = defaultSignal ∧
      defaultSignal.intent = .update ∧ defaultSignal.confidence = 1 / 2 ∧
      defaultSignal.needs_owner = false ∧ defaultSignal.uncertainty = 1 ∧
      (∀ r, (analyze_message parseFloatStr pyStrFn jsonLoads (some r)).uncertainty =
        1 - (analyze_message parseFloatStr pyStrFn jsonLoads (some r)).confidence) := by
  refine ⟨?_, rfl, rfl, rfl, rfl, rfl, ?_⟩
  · intro outcome
    cases outcome with
    | none =>
      constructor
      · norm_num [analyze_message, defaultSignal]
      · norm_num [analyze_message, defaultSignal]
    | some r =>
      constructor
      · exact le_max_left _ _
      · exact max_le (by norm_num) (min_le_left _ _)
  · intro r
    rfl

/-- Counterexample to claim C4 as stated: the failure-path default signal
does not satisfy `uncertainty = 1 − confidence` — it has
`uncertainty = 1.0` with `confidence = 0.5`. -/
theorem analyze_message_default_violates_invariant :
    analyze_message (fun _ => Option.none) (fun _ => "") (fun _ => Option.none)
        Option.none = defaultSignal ∧
      defaultSignal.uncertainty ≠ 1 - defaultSignal.confidence := by
  exact ⟨rfl, by norm_num [defaultSignal]⟩

/-! ## `app/services/analytics.py` — `AnalyticsEngine.detect_gaps` -/

/-- `GapType` enum from `app/models/database.py`. -/
inductive GapType where
  | ownership
  | context
  | response
  | resolution
  deriving DecidableEq, Repr

/-- One gap dict as built by `detect_gaps`. -/
structure Gap where
  id : String
  gap_type : GapType
  severity : ℚ
  description : String
  detected_at : ℚ
  deriving DecidableEq, Repr

/-- A persisted `StateTransition` row, restricted to the fields
`detect_gaps` reads (`to_state` and `timestamp`). -/
structure DbTransition where
  to_state : ConversationState
  timestamp : ℚ
  deriving DecidableEq, Repr

/-- A persisted `Message` row, restricted to the fields `detect_gaps`
reads: `content` and `extracted_intent` (the enum's `.value` string,
`none` for a NULL column). -/
structure DbMessage where
  content : String
  extracted_intent : Option String
  deriving DecidableEq, Repr

/-- `msg.extracted_intent and "question" in msg.extracted_intent.value`. -/
def isQuestionMsg (m : DbMessage) : Bool :=
  match m.extracted_intent with
  | some v => strContains v "question"
  | Option.none => false

/-- First 100 characters of a message, as `content[:100]`. -/
def first100 (s : String) : List Char :=
  s.toList.take 100

/-- Inner loop of the similarity pass: matches for `msg1` among all later
messages (`messages[i+1:]` — the whole remaining tail, not a window). -/
def matchesIn (msg1 : DbMessage) (rest : List DbMessage) : Nat :=
  rest.countP (fun msg2 => isQuestionMsg msg2 && (first100 msg1.content == first100 msg2.content))

/-- Outer loop of the similarity pass with explicit fuel: `msg1` ranges
over at most `fuel` leading messages (`enumerate(messages[:10])` gives
fuel 10), each compared against its entire tail. -/
def countSimilarAux : Nat → List DbMessage → Nat
  | _, [] => 0
  | 0, _ :: _ => 0
  | fuel + 1, m :: rest =>
    (if isQuestionMsg m then matchesIn m rest else 0) + countSimilarAux fuel rest

/-- The `similar_questions` counter computed by `detect_gaps`. -/
def similar_questions (messages : List DbMessage) : Nat :=
  countSimilarAux 10 messages

/-- Severity of an ownership gap: `min(1.0, time_since_question / 72)`. -/
def ownershipSeverity (hoursSince : ℚ) : ℚ :=
  min 1 (hoursSince / 72)

/-- `AnalyticsEngine.detect_gaps`, for a conversation that exists: the
gap list it returns (and persists). The two fresh `uuid4` ids and
`datetime.utcnow()` are parameters; the conversation's `current_state`,
time-ordered transitions, and time-ordered messages are the query
results. -/
def detect_gaps (id1 id2 : String) (now : ℚ) (current_state : ConversationState)
    (transitions : List DbTransition) (messages : List DbMessage) : List Gap :=
  let ownership_gaps :=
    if current_state = .question_raised ∧
        ¬ transitions.any (fun t => t.to_state == .owner_assigned) then
      let time_since_question : ℚ :=
        match transitions.getLast? with
        | some t => (now - t.timestamp) / 3600
        | Option.none => 0
      if 24 < time_since_question then
        [{ id := id1, gap_type := .ownership,
           severity := ownershipSeverity time_since_question,
           description := "No owner assigned within 24+ hours", detected_at := now }]
      else []
    else []
  let context_gaps :=
    if 2 ≤ similar_questions messages then
      [{ id := id2, gap_type := .context, severity := 3 / 5,
         description := "Similar questions asked " ++
           toString (similar_questions messages + 1) ++ " times",
         detected_at := now }]
    else []
  ownership_gaps ++ context_gaps

/-- Claim C6: for a conversation in `question_raised` with no transition
into `owner_assigned` and hours-since-last-transition `h > 24`, the first
emitted gap is an ownership gap of severity `min(1, h/72)`; moreover this
severity lies in `[0,1]` for every `h ≥ 0` and equals exactly 1 once
`h ≥ 72`. -/
theorem detect_gaps_ownership_severity (id1 id2 : String) (now : ℚ)
    (transitions : List DbTransition) (t : DbTransition) (messages : List DbMessage)
    (hlast : transitions.getLast? = some t)
    (hnoowner : transitions.any (fun t => t.to_state == .owner_assigned) = false)
    (h24 : 24 < (now - t.timestamp) / 3600) :
    (detect_gaps id1 id2 now .question_raised transitions messages).head? =
      some { id := id1, gap_type := .ownership,
             severity := ownershipSeverity ((now - t.timestamp) / 3600),
             description := "No owner assigned within 24+ hours", detected_at := now } ∧
      (∀ h : ℚ, 0 ≤ h → 0 ≤ ownershipSeverity h ∧ ownershipSeverity h ≤ 1) ∧
      (∀ h : ℚ, 72 ≤ h → ownershipSeverity h = 1) := by
  refine ⟨?_, ?_, ?_⟩
  · simp [detect_gaps, hlast, hnoowner, h24]
  · intro h hh
    constructor
    · exact le_min (by norm_num) (by positivity)
    · exact min_le_left _ _
  · intro h hh
    have h1 : (1 : ℚ) ≤ h / 72 := by
      rw [le_div_iff₀ (by norm_num : (0:ℚ) < 72)]
      linarith
    simpa [ownershipSeverity] using min_eq_left h1

theorem detect_gaps_ownership_severity_witness :
    ([⟨ConversationState.question_raised, 0⟩] : List DbTransition).getLast? =
        some ⟨ConversationState.question_raised, 0⟩ ∧
      ([⟨ConversationState.question_raised, 0⟩] : List DbTransition).any
        (fun t => t.to_state == .owner_assigned) = false ∧
      (24 : ℚ) < ((108000 : ℚ) - 0) / 3600 ∧
      (detect_gaps "g1" "g2" 108000 .question_raised
          [⟨.question_raised, 0⟩] []).head? =
        some { id := "g1", gap_type := .ownership,
               severity := ownershipSeverity ((108000 - 0) / 3600),
               description := "No owner assigned within 24+ hours",
               detected_at := 108000 } := by
  refine ⟨rfl, by decide, by norm_num, ?_⟩
  exact (detect_gaps_ownership_severity "g1" "g2" 108000 [⟨.question_raised, 0⟩]
    ⟨.question_raised, 0⟩ [] rfl (by decide) (by norm_num)).1

/-- Claim C10: one `detect_gaps` scan emits at most one ownership gap, at
most one context gap, never a response or resolution gap, and at most two
gaps in total. -/
theorem detect_gaps_shape (id1 id2 : String) (now : ℚ) (current_state : ConversationState)
    (transitions : List DbTransition) (messages : List DbMessage) :
    (detect_gaps id1 id2 now current_state transitions messages).countP
        (fun g => g.gap_type == .ownership) ≤ 1 ∧
      (detect_gaps id1 id2 now current_state transitions messages).countP
        (fun g => g.gap_type == .context) ≤ 1 ∧
      (detect_gaps id1 id2 now current_state transitions messages).countP
        (fun g => g.gap_type == .response || g.gap_type == .resolution) = 0 ∧
      (detect_gaps id1 id2 now current_state transitions messages).length ≤ 2 := by
  unfold detect_gaps
  split_ifs <;>
    simp only [List.countP_append, List.length_append] <;>
    (try split_ifs) <;>
    simp [List.countP_cons, List.countP_nil]

/-- Twelve persisted messages: an old question (index 0), nine
intent-free messages, and the same question repeated at indices 10 and
11 — so the most recent ten messages contain exactly one identical
question pair. -/
def exMessages : List DbMessage :=
  [⟨"Where is the deploy runbook?", some "question"⟩,
   ⟨"m1", Option.none⟩, ⟨"m2", Option.none⟩, ⟨"m3", Option.none⟩,
   ⟨"m4", Option.none⟩, ⟨"m5", Option.none⟩, ⟨"m6", Option.none⟩,
   ⟨"m7", Option.none⟩, ⟨"m8", Option.none⟩, ⟨"m9", Option.none⟩,
   ⟨"Where is the deploy runbook?", some "question"⟩,
   ⟨"Where is the deploy runbook?", some "question"⟩]

/-- Modelled from the spec's words, for comparison with the code (the
code itself is in `detect_gaps`): the number of pairs of question-intent
messages *within the most recent ~10 messages* whose first 100 characters
are identical. -/
def specWindowSimilarCount (messages : List DbMessage) : Nat :=
  go (messages.drop (messages.length - 10))
where
  go : List DbMessage → Nat
    | [] => 0
    | m :: rest => (if isQuestionMsg m then matchesIn m rest else 0) + go rest

/-- Counterexample to claim C7 as stated: on `exMessages` the most recent
ten messages contain only one repeated question pair (so the claimed rule
emits nothing), yet `detect_gaps` emits a context gap — its outer loop
scans the *earliest* ten messages and its inner loop scans the entire
remaining conversation. -/
theorem detect_gaps_context_window_counterexample :
    specWindowSimilarCount exMessages = 1 ∧
      (detect_gaps "g1" "g2" 0 .idle [] exMessages).countP
        (fun g => g.gap_type == .context) = 1 := by
  constructor <;> decide

/-- Claim C7 (amended): the similarity pass takes the first message of
each pair from the *earliest* ten messages of the conversation and
compares it against every later message of the whole conversation (the
scan is not bounded to the most recent ten); it counts pairs of
question-intent messages whose first 100 characters are identical, and
emits exactly one context gap — with fixed severity 0.6 and the count
plus one in the description — precisely when at least 2 such pairs
exist. -/
theorem detect_gaps_context_characterization (id1 id2 : String) (now : ℚ)
    (current_state : ConversationState) (transitions : List DbTransition)
    (messages : List DbMessage) :
    (detect_gaps id1 id2 now current_state transitions messages).filter
        (fun g => g.gap_type == .context) =
      (if 2 ≤ similar_questions messages then
        [{ id := id2, gap_type := .context, severity := 3 / 5,
           description := "Similar questions asked " ++
             toString (similar_questions messages + 1) ++ " times",
           detected_at := now }]
      else []) := by
  unfold detect_gaps
  split_ifs <;> simp [List.filter_append]

end Coordapp
